import Mathlib

/-!
Shallow embedding of the ZATCA QR / TLV core of `src/app.py` (a Streamlit
application).  Byte strings are modelled as `List Nat` with every element
below 256; Python `str` is modelled as Lean `String` (a list of Unicode
scalar values, matching CPython code points for the inputs considered).
Python exceptions are modelled with `Except PyError`.
-/

namespace App

/-- Errors raised (or surfaced) by the Python code:
`valueTooLarge` is the `ValueError("TLV>255B")` raised by `_tlv`;
`byteOutOfRange` is the `ValueError` raised by the `bytes([tag, len(b)])`
constructor when `tag` is not in `0..255`;
`invalidOperation` is `decimal.InvalidOperation` escaping from
`q.quantize(...)` in `_fmt2`;
`invalidVatLength` is the `st.error` rejection path of the QR button
handler when the cleaned VAT string is not 15 characters long. -/
inductive PyError where
  | valueTooLarge
  | byteOutOfRange
  | invalidOperation
  | invalidVatLength
deriving DecidableEq

/-- UTF-8 encoding of one Unicode scalar value, as in CPython
`str.encode("utf-8")` (standard RFC 3629 layout; Lean `Char` carries a
valid scalar value, so no surrogate case arises). -/
def utf8EncodeChar (c : Char) : List Nat :=
  let n := c.toNat
  if n < 128 then [n]
  else if n < 2048 then [192 + n / 64, 128 + n % 64]
  else if n < 65536 then [224 + n / 4096, 128 + n / 64 % 64, 128 + n % 64]
  else [240 + n / 262144, 128 + n / 4096 % 64, 128 + n / 64 % 64, 128 + n % 64]

/-- `s.encode("utf-8")` as a list of byte values. -/
def utf8Bytes (s : String) : List Nat :=
  (s.data.map utf8EncodeChar).flatten

/-- `_tlv(tag, val)` from `src/app.py`:
`b = val.encode("utf-8"); if len(b) > 255: raise ValueError("TLV>255B");
return bytes([tag, len(b)]) + b`.  The length check is evaluated first;
the `bytes` constructor would then reject a tag outside `0..255`
(represented here by `byteOutOfRange`; the callers only use tags 1..5). -/
def _tlv (tag : Nat) (val : String) : Except PyError (List Nat) :=
  if (utf8Bytes val).length > 255 then .error .valueTooLarge
  else if tag > 255 then .error .byteOutOfRange
  else .ok (tag :: (utf8Bytes val).length :: utf8Bytes val)

/-- The byte-assembly step of `build_zatca_base64`:
`payload = b"".join([_tlv(1,seller), _tlv(2,vat), _tlv(3,dt_iso),
_tlv(4,total), _tlv(5,vat_s)])`.  An exception from any `_tlv` call
aborts the whole join, so no partial payload exists. -/
def encodeInvoicePayload (seller vat dt_iso total vat_s : String) :
    Except PyError (List Nat) := do
  let t1 ← _tlv 1 seller
  let t2 ← _tlv 2 vat
  let t3 ← _tlv 3 dt_iso
  let t4 ← _tlv 4 total
  let t5 ← _tlv 5 vat_s
  return t1 ++ t2 ++ t3 ++ t4 ++ t5

/-- Standard base64 alphabet (RFC 4648), as used by `base64.b64encode`. -/
def b64Chars : List Char :=
  "ABCDEFGHIJKLMNOPQRSTUVWXYZabcdefghijklmnopqrstuvwxyz0123456789+/".data

def b64Char (n : Nat) : Char := b64Chars.getD n 'A'

/-- `base64.b64encode` on a byte list: groups of three bytes become four
alphabet characters; a final group of one or two bytes is padded with
`=`.  No line breaks are inserted. -/
def b64encodeList : List Nat → List Char
  | [] => []
  | [a] => [b64Char (a / 4), b64Char (a % 4 * 16), '=', '=']
  | [a, b] => [b64Char (a / 4), b64Char (a % 4 * 16 + b / 16), b64Char (b % 16 * 4), '=']
  | a :: b :: c :: rest =>
      b64Char (a / 4) :: b64Char (a % 4 * 16 + b / 16) ::
      b64Char (b % 16 * 4 + c / 64) :: b64Char (c % 64) :: b64encodeList rest

def b64Val (c : Char) : Option Nat := b64Chars.indexOf? c

/-- Strict base64 decoding (RFC 4648): four-character groups, `=` padding
allowed only in the final group. -/
def b64decodeList : List Char → Option (List Nat)
  | [] => some []
  | [c1, c2, '=', '='] => do
      let v1 ← b64Val c1
      let v2 ← b64Val c2
      return [v1 * 4 + v2 / 16]
  | [c1, c2, c3, '='] => do
      let v1 ← b64Val c1
      let v2 ← b64Val c2
      let v3 ← b64Val c3
      return [v1 * 4 + v2 / 16, v2 % 16 * 16 + v3 / 4]
  | c1 :: c2 :: c3 :: c4 :: rest => do
      let v1 ← b64Val c1
      let v2 ← b64Val c2
      let v3 ← b64Val c3
      let v4 ← b64Val c4
      let tl ← b64decodeList rest
      return (v1 * 4 + v2 / 16) :: (v2 % 16 * 16 + v3 / 4) :: (v3 % 4 * 64 + v4) :: tl
  | _ => none

/-- `build_zatca_base64(seller, vat, dt_iso, total, vat_s)` from
`src/app.py`: assembles the TLV payload and returns
`base64.b64encode(payload).decode("ascii")`. -/
def build_zatca_base64 (seller vat dt_iso total vat_s : String) :
    Except PyError String := do
  let payload ← encodeInvoicePayload seller vat dt_iso total vat_s
  return ⟨b64encodeList payload⟩

/-- Decoding one TLV record from the front of a byte stream: one tag
byte, one length byte, then that many value bytes. -/
def decodeTlv : List Nat → Option (Nat × Nat × List Nat)
  | t :: l :: rest => if l ≤ rest.length then some (t, l, rest.take l) else none
  | _ => none

/-- CPython `str.isspace` (equivalently the set matched by `re` class
`\s` on `str`): ASCII whitespace and separators 0x1C..0x1F, plus the
Unicode space characters. -/
def pyIsSpace (c : Char) : Bool :=
  let n := c.toNat
  decide ((9 ≤ n ∧ n ≤ 13) ∨ (28 ≤ n ∧ n ≤ 32) ∨ n = 133 ∨ n = 160 ∨ n = 5760 ∨
    (8192 ≤ n ∧ n ≤ 8202) ∨ n = 8232 ∨ n = 8233 ∨ n = 8239 ∨ n = 8287 ∨ n = 12288)

/-- Remove the longest suffix of characters satisfying `p`. -/
def dropWhileEnd (p : Char → Bool) (l : List Char) : List Char :=
  (l.reverse.dropWhile p).reverse

/-- CPython `str.strip()` with no argument: removes leading and trailing
Unicode whitespace. -/
def pyStrip (s : String) : String :=
  ⟨dropWhileEnd pyIsSpace (s.data.dropWhile pyIsSpace)⟩

/-- First code points of the 10-character runs whose Unicode general
category is `Nd` (decimal digit), per the Unicode database used by
CPython; `re` class `\d` on `str` and `int()` digit parsing both use
this set, each digit having value `codepoint - runStart`. -/
def ndStarts : List Nat :=
  [0x30, 0x660, 0x6F0, 0x7C0, 0x966, 0x9E6, 0xA66, 0xAE6, 0xB66, 0xBE6,
   0xC66, 0xCE6, 0xD66, 0xDE6, 0xE50, 0xED0, 0xF20, 0x1040, 0x1090, 0x17E0,
   0x1810, 0x1946, 0x19D0, 0x1A80, 0x1A90, 0x1B50, 0x1BB0, 0x1C40, 0x1C50, 0xA620,
   0xA8D0, 0xA900, 0xA9D0, 0xA9F0, 0xAA50, 0xABF0, 0xFF10, 0x104A0, 0x10D30, 0x11066,
   0x110F0, 0x11136, 0x111D0, 0x112F0, 0x11450, 0x114D0, 0x11650, 0x116C0, 0x11730, 0x118E0,
   0x11950, 0x11C50, 0x11D50, 0x11DA0, 0x16A60, 0x16AC0, 0x16B50, 0x1D7CE, 0x1D7D8, 0x1D7E2,
   0x1D7EC, 0x1D7F6, 0x1E140, 0x1E2F0, 0x1E950, 0x1FBF0]

/-- Unicode decimal-digit test (`re` `\d` for `str` patterns). -/
def isNd (c : Char) : Bool :=
  ndStarts.any fun s => decide (s ≤ c.toNat ∧ c.toNat < s + 10)

/-- Decimal value of an `Nd` digit (0 for non-digits, which never occurs
at use sites). -/
def ndVal (c : Char) : Nat :=
  ((ndStarts.find? fun s => decide (s ≤ c.toNat ∧ c.toNat < s + 10)).map
    fun s => c.toNat - s).getD 0

/-- `_clean_vat(v)` from `src/app.py`: `re.sub(r"\D", "", v or "")` — keeps
exactly the Unicode decimal-digit characters of the input, in order. -/
def _clean_vat (v : String) : String := ⟨v.data.filter isNd⟩

/-- `str.maketrans("٠١٢٣٤٥٦٧٨٩", "0123456789")` applied to one character:
Arabic-Indic digits U+0660..U+0669 map to ASCII digits. -/
def arabicToAscii (c : Char) : Char :=
  if 0x660 ≤ c.toNat ∧ c.toNat ≤ 0x669 then Char.ofNat (c.toNat - 0x660 + 48) else c

/-- The bidirectional-control class removed by `sanitize`:
`[‎‏‪-‮⁦-⁩﻿]`. -/
def isBidiControl (c : Char) : Bool :=
  let n := c.toNat
  decide (n = 0x200E ∨ n = 0x200F ∨ (0x202A ≤ n ∧ n ≤ 0x202E) ∨
    (0x2066 ≤ n ∧ n ≤ 0x2069) ∨ n = 0xFEFF)

/-- `sanitize(s)` from `src/app.py`: transliterate Arabic-Indic digits to
ASCII, delete the bidirectional-control characters, keep only characters
with code point below 128, then `strip()`. -/
def sanitize (s : String) : String :=
  pyStrip ⟨((s.data.map arabicToAscii).filter fun c => !isBidiControl c).filter
    fun c => decide (c.toNat < 128)⟩

/-- ASCII digit character for a value in `0..9`. -/
def digitChar (n : Nat) : Char := Char.ofNat (48 + n)

/-- Fuel-driven digit expansion; `fuel` larger than the number makes it
total (the number shrinks by a factor of ten per step). -/
def natDigitsAux : Nat → Nat → List Nat
  | 0, _ => []
  | fuel + 1, n => if n < 10 then [n] else natDigitsAux fuel (n / 10) ++ [n % 10]

/-- Decimal digits of a natural number, most significant first. -/
def natDigits (n : Nat) : List Nat := natDigitsAux (n + 1) n

/-- Unpadded decimal rendering of a natural number. -/
def natToDec (n : Nat) : String := ⟨(natDigits n).map digitChar⟩

/-- Two-digit zero-padded decimal rendering (for values below 100). -/
def pad2 (n : Nat) : String := ⟨[digitChar (n / 10 % 10), digitChar (n % 10)]⟩

/-- A value of CPython `decimal.Decimal`: a finite number
`(-1)^neg * coeff * 10^exp`, a signed infinity, or a (signaling or
quiet) NaN carrying a numeric diagnostic payload. -/
inductive PyDec where
  | num (neg : Bool) (coeff : Nat) (exp : Int)
  | inf (neg : Bool)
  | nanv (neg : Bool) (signaling : Bool) (diag : Nat)
deriving DecidableEq

/-- ASCII lower-casing of one character (the `Decimal` string grammar is
case-insensitive). -/
def toLowerAscii (c : Char) : Char :=
  if 65 ≤ c.toNat ∧ c.toNat ≤ 90 then Char.ofNat (c.toNat + 32) else c

/-- Value of a digit-character list read in base 10 (CPython `int()` on a
string of decimal digits). -/
def digitsVal (l : List Char) : Nat := l.foldl (fun a c => a * 10 + ndVal c) 0

/-- Mantissa part of the `Decimal` grammar:
`\d* (\. \d*)?` with at least one digit overall.  Returns the combined
coefficient digits value, the number of fraction digits, and the rest of
the input. -/
def parseMantissa (l : List Char) : Option (Nat × Nat × List Char) :=
  let ip := l.takeWhile isNd
  let r := l.dropWhile isNd
  match r with
  | '.' :: r2 =>
      let fp := r2.takeWhile isNd
      if ip.isEmpty ∧ fp.isEmpty then none
      else some (digitsVal (ip ++ fp), fp.length, r2.dropWhile isNd)
  | _ => if ip.isEmpty then none else some (digitsVal ip, 0, r)

/-- Exponent part of the `Decimal` grammar: either nothing remains, or
`e [+-]? \d+` consuming the whole rest. -/
def parseExponent (l : List Char) : Option Int :=
  match l with
  | [] => some 0
  | 'e' :: r =>
      let sgnNeg := match r with
        | '-' :: _ => true
        | _ => false
      let r2 := match r with
        | '-' :: t => t
        | '+' :: t => t
        | _ => r
      let ds := r2.takeWhile isNd
      if ds.isEmpty ∨ r2.dropWhile isNd ≠ [] then none
      else some (if sgnNeg then -(digitsVal ds : Int) else (digitsVal ds : Int))
  | _ => none

/-- Numeric branch of the `Decimal` grammar (applied after the sign). -/
def parseNumeric (neg : Bool) (l : List Char) : Option PyDec :=
  match parseMantissa l with
  | none => none
  | some (c, fl, rest) =>
      match parseExponent rest with
      | none => none
      | some e => some (.num neg c (e - fl))

/-- Special-value branch of the `Decimal` grammar: `inf`, `infinity`, or
`s? nan \d*` (all case-insensitive, applied after the sign). -/
def parseSpecial (neg : Bool) (l : List Char) : Option PyDec :=
  if l = "inf".data ∨ l = "infinity".data then some (.inf neg)
  else
    let sig := match l with
      | 's' :: _ => true
      | _ => false
    let r := match l with
      | 's' :: t => t
      | _ => l
    match r with
    | 'n' :: 'a' :: 'n' :: ds =>
        if ds.all isNd then some (.nanv neg sig (digitsVal ds)) else none
    | _ => none

/-- The CPython `Decimal(string)` constructor: the input is stripped of
surrounding whitespace, underscores are removed, and the remainder must
match `[+-]? ( \d* (\.\d*)? ([eE][+-]?\d+)? | Inf(inity)? | s?NaN\d* )`
case-insensitively with at least one digit in a numeric literal.
`none` models the `InvalidOperation` conversion error (caught in
`_fmt2`). -/
def parseDecimal (s : String) : Option PyDec :=
  let l := ((pyStrip s).data.filter fun c => c ≠ '_').map toLowerAscii
  let neg := match l with
    | '-' :: _ => true
    | _ => false
  let r := match l with
    | '-' :: t => t
    | '+' :: t => t
    | _ => l
  match parseNumeric neg r with
  | some d => some d
  | none => parseSpecial neg r

/-- Round-half-up magnitude of `coeff * 10^(exp+2)`, i.e. the coefficient
of the value quantized to two fraction digits with `ROUND_HALF_UP`
(ties away from zero, applied to the magnitude). -/
def halfUpScaled (coeff : Nat) (exp : Int) : Nat :=
  if 0 ≤ exp + 2 then coeff * 10 ^ (exp + 2).toNat
  else (2 * coeff + 10 ^ (-(exp + 2)).toNat) / (2 * 10 ^ (-(exp + 2)).toNat)

/-- `format(q.quantize(Decimal("0.01"), rounding=ROUND_HALF_UP), "f")`
on a `Decimal` value `q`, under the default context (precision 28):
quantizing an infinity or a signaling NaN raises `InvalidOperation`, as
does a result whose coefficient needs more than 28 digits; a quiet NaN
passes through and is formatted as `NaN` text with its diagnostic; a
finite result is formatted in fixed point with exactly two fraction
digits. -/
def quantizeFmt : PyDec → Except PyError String
  | .num neg c e =>
      let r := halfUpScaled c e
      if r ≥ 10 ^ 28 then .error .invalidOperation
      else .ok ((if neg then "-" else "") ++ natToDec (r / 100) ++ "." ++ pad2 (r % 100))
  | .inf _ => .error .invalidOperation
  | .nanv neg sig d =>
      if sig then .error .invalidOperation
      else .ok ((if neg then "-" else "") ++ "NaN" ++ (if d = 0 then "" else natToDec d))

/-- `_fmt2(x)` from `src/app.py`: `try: q = Decimal(x) except
InvalidOperation: q = Decimal("0")`, then
`format(q.quantize(Decimal("0.01"), rounding=ROUND_HALF_UP), "f")`.
Only the constructor is guarded: an `InvalidOperation` from `quantize`
propagates out. -/
def _fmt2 (x : String) : Except PyError String :=
  quantizeFmt ((parseDecimal x).getD (.num false 0 0))

/-- The `st.button("إنشاء رمز QR")` handler from `src/app.py`:
`vclean = _clean_vat(qr_vat_number); if len(vclean) != 15: st.error(...)`
— modelled as `invalidVatLength` — `else: b64 = build_zatca_base64(
qr_seller.strip(), vclean, iso, _fmt2(qr_total), _fmt2(qr_vat))`.
The ISO timestamp is produced by `_iso_utc` from the session date and
time; its value depends on the host timezone, so it is taken here as the
parameter `iso`.  The handler shows the base64 text and feeds the same
string to the QR renderer; the TLV payload bytes underlying it are
returned alongside for inspection. -/
def qr_button_handler (qr_vat_number qr_seller qr_total qr_vat iso : String) :
    Except PyError (List Nat × String) :=
  let vclean := _clean_vat qr_vat_number
  if vclean.length ≠ 15 then .error .invalidVatLength
  else do
    let total2 ← _fmt2 qr_total
    let vat2 ← _fmt2 qr_vat
    let payload ← encodeInvoicePayload (pyStrip qr_seller) vclean iso total2 vat2
    return (payload, ⟨b64encodeList payload⟩)

/-- Leap-year rule of the proleptic Gregorian calendar used by
`datetime.date`. -/
def isLeap (y : Nat) : Bool := (y % 4 = 0 && y % 100 ≠ 0) || y % 400 = 0

/-- Days in a month, as validated by the `datetime` constructor. -/
def daysInMonth (y m : Nat) : Nat :=
  if m = 2 then (if isLeap y then 29 else 28)
  else if m = 4 ∨ m = 6 ∨ m = 9 ∨ m = 11 then 30
  else 31

/-- Validity check performed by the `datetime(y, M, d, H, Mi, S)`
constructor: `MINYEAR = 1`, `MAXYEAR = 9999`, a real calendar day, and
wall-clock fields in range (seconds 60/61 admitted by the `strptime`
regex are rejected here). -/
def validDateTime (y M d H Mi S : Nat) : Bool :=
  decide (1 ≤ y ∧ y ≤ 9999 ∧ 1 ≤ M ∧ M ≤ 12 ∧ 1 ≤ d ∧ d ≤ daysInMonth y M ∧
    H ≤ 23 ∧ Mi ≤ 59 ∧ S ≤ 59)

/-- `int()` of a two-character digit match. -/
def nd2 (a b : Char) : Nat := ndVal a * 10 + ndVal b

/-- `int()` of a four-character digit match. -/
def nd4 (a b c d : Char) : Nat :=
  ((ndVal a * 10 + ndVal b) * 10 + ndVal c) * 10 + ndVal d

/-- `_strptime` field regex `%d`: `(3[01]|[12]\d|0[1-9]|[1-9])`, the
two-character alternatives (`\d` is the Unicode digit class, the
bracketed classes are ASCII literals). -/
def dayOk2 (c1 c2 : Char) : Bool :=
  (c1 == '3' && (c2 == '0' || c2 == '1')) ||
  ((c1 == '1' || c1 == '2') && isNd c2) ||
  (c1 == '0' && decide ('1' ≤ c2 ∧ c2 ≤ '9'))

/-- `%d` / `%m` one-character alternative `[1-9]`. -/
def dayOk1 (c : Char) : Bool := decide ('1' ≤ c ∧ c ≤ '9')

/-- `_strptime` field regex `%m`: `(1[0-2]|0[1-9]|[1-9])`, two-character
alternatives. -/
def monthOk2 (c1 c2 : Char) : Bool :=
  (c1 == '1' && (c2 == '0' || c2 == '1' || c2 == '2')) ||
  (c1 == '0' && decide ('1' ≤ c2 ∧ c2 ≤ '9'))

/-- `_strptime` field regex `%H`: `(2[0-3]|[0-1]\d|\d)`, two-character
alternatives. -/
def hourOk2 (c1 c2 : Char) : Bool :=
  (c1 == '2' && decide ('0' ≤ c2 ∧ c2 ≤ '3')) || ((c1 == '0' || c1 == '1') && isNd c2)

/-- `_strptime` field regex `%M`: `([0-5]\d|\d)`, two-character
alternative. -/
def minuteOk2 (c1 c2 : Char) : Bool := decide ('0' ≤ c1 ∧ c1 ≤ '5') && isNd c2

/-- `_strptime` field regex `%S`: `(6[0-1]|[0-5]\d|\d)`, two-character
alternatives. -/
def secondOk2 (c1 c2 : Char) : Bool :=
  (c1 == '6' && (c2 == '0' || c2 == '1')) || minuteOk2 c1 c2

/-- One numeric field of the `_strptime` regex: a two-character
alternative tried first, then a one-character fallback.  Committing to a
successful two-character match loses no behaviour relative to regex
backtracking: every two-character alternative makes the second character
a digit, while after backtracking the one-character branch would have to
match the following literal separator (or end of input) against that
digit, which is impossible. -/
def parseField (ok2 : Char → Char → Bool) (ok1 : Char → Bool) :
    List Char → Option (Nat × List Char)
  | c1 :: c2 :: rest =>
      if ok2 c1 c2 then some (nd2 c1 c2, rest)
      else if ok1 c1 then some (ndVal c1, c2 :: rest)
      else none
  | [c1] => if ok1 c1 then some (ndVal c1, []) else none
  | [] => none

/-- `_strptime` field regex `%Y`: `\d\d\d\d` (exactly four digits). -/
def parseYear4 : List Char → Option (Nat × List Char)
  | c1 :: c2 :: c3 :: c4 :: rest =>
      if isNd c1 && isNd c2 && isNd c3 && isNd c4 then
        some (nd4 c1 c2 c3 c4, rest)
      else none
  | _ => none

/-- A literal (non-whitespace) character of the format. -/
def expectChar (c : Char) : List Char → Option (List Char)
  | x :: rest => if x == c then some rest else none
  | [] => none

/-- Whitespace in a `strptime` format matches `\s+` (one or more
whitespace characters).  The greedy run is committed: the following
pattern starts with a digit class, which no whitespace character
satisfies, so regex backtracking into a shorter run cannot succeed. -/
def expectWs (l : List Char) : Option (List Char) :=
  if (l.takeWhile pyIsSpace).isEmpty then none else some (l.dropWhile pyIsSpace)

/-- `datetime.strptime(s, "%d/%m/%Y, %H:%M:%S")`: the `_strptime` regex
must consume the whole input, then the `datetime` constructor validates
the fields; failure of either raises `ValueError` (modelled `none`). -/
def strptimeDisplay (s : String) : Option (Nat × Nat × Nat × Nat × Nat × Nat) := do
  let (d, r1) ← parseField dayOk2 dayOk1 s.data
  let r2 ← expectChar '/' r1
  let (M, r3) ← parseField monthOk2 dayOk1 r2
  let r4 ← expectChar '/' r3
  let (y, r5) ← parseYear4 r4
  let r6 ← expectChar ',' r5
  let r7 ← expectWs r6
  let (H, r8) ← parseField hourOk2 isNd r7
  let r9 ← expectChar ':' r8
  let (Mi, r10) ← parseField minuteOk2 isNd r9
  let r11 ← expectChar ':' r10
  let (S, rEnd) ← parseField secondOk2 isNd r11
  if rEnd.isEmpty && validDateTime y M d H Mi S then return (y, M, d, H, Mi, S)
  else none

/-- An ASCII apostrophe, kept out of string literals. -/
def apos : String := ⟨[Char.ofNat 39]⟩

/-- `dt.strftime("D:%Y%m%d%H%M%S+03'00'")` as produced by
`display_date_to_pdf_date`: `%Y` renders the year as an unpadded decimal
(glibc behaviour, observed under CPython on Linux); the other fields are
zero-padded to two characters. -/
def strftimePdf (y M d H Mi S : Nat) : String :=
  "D:" ++ natToDec y ++ pad2 M ++ pad2 d ++ pad2 H ++ pad2 Mi ++ pad2 S ++
  "+03" ++ apos ++ "00" ++ apos

/-- `dt.strftime("%d/%m/%Y, %H:%M:%S")`: day, month, hour, minute and
second zero-padded to two characters, `%Y` unpadded (glibc). -/
def strftimeDisplay (y M d H Mi S : Nat) : String :=
  pad2 d ++ "/" ++ pad2 M ++ "/" ++ natToDec y ++ ", " ++ pad2 H ++ ":" ++
  pad2 Mi ++ ":" ++ pad2 S

/-- `display_date_to_pdf_date(s)` from `src/app.py`: strict display-format
parse, then PDF-date rendering; on any failure the input is returned
unchanged. -/
def display_date_to_pdf_date (s : String) : String :=
  match strptimeDisplay s with
  | some (y, M, d, H, Mi, S) => strftimePdf y M d H Mi S
  | none => s

/-- The regex `^(\d{4})(\d{2})(\d{2})(\d{2})(\d{2})(\d{2})` of
`pdf_date_to_display_date`: a prefix of fourteen Unicode digits (the
rest of the input is unconstrained), grouped as year, month, day, hour,
minute, second and converted with `int()`. -/
def pdfRegex14 (l : List Char) : Option (Nat × Nat × Nat × Nat × Nat × Nat) :=
  match l with
  | y1 :: y2 :: y3 :: y4 :: m1 :: m2 :: d1 :: d2 :: h1 :: h2 :: i1 :: i2 :: s1 :: s2 :: _ =>
      if [y1, y2, y3, y4, m1, m2, d1, d2, h1, h2, i1, i2, s1, s2].all isNd then
        some (nd4 y1 y2 y3 y4, nd2 m1 m2, nd2 d1 d2, nd2 h1 h2, nd2 i1 i2, nd2 s1 s2)
      else none
  | _ => none

/-- `pdf_date_to_display_date(s)` from `src/app.py`: empty input gives
`""`; a leading `D:` is stripped; if fourteen digits follow and denote a
valid date-time, the display rendering is returned, otherwise the
`D:`-stripped string is returned. -/
def pdf_date_to_display_date (s : String) : String :=
  if s = "" then ""
  else
    let l := if s.data.take 2 = ['D', ':'] then s.data.drop 2 else s.data
    match pdfRegex14 l with
    | some (y, M, d, H, Mi, S) =>
        if validDateTime y M d H Mi S then strftimeDisplay y M d H Mi S else ⟨l⟩
    | none => ⟨l⟩

/-- The byte list a successful `_tlv tag val` returns: one tag byte, one
length byte, then the UTF-8 bytes of the value. -/
def tlvRaw (tag : Nat) (val : String) : List Nat :=
  tag :: (utf8Bytes val).length :: utf8Bytes val

/-- The `D:`-stripping step of `pdf_date_to_display_date`. -/
def stripD (s : String) : String :=
  if s.data.take 2 = ['D', ':'] then ⟨s.data.drop 2⟩ else s

/-- The TLV payload of the known test vector
(seller `Acme`, VAT `123456789012345`, timestamp
`2024-01-01T12:00:00Z`, total `115.00`, VAT amount `15.00`). -/
def zatcaVector : List Nat :=
  [1, 4, 65, 99, 109, 101,
   2, 15, 49, 50, 51, 52, 53, 54, 55, 56, 57, 48, 49, 50, 51, 52, 53,
   3, 20, 50, 48, 50, 52, 45, 48, 49, 45, 48, 49, 84, 49, 50, 58, 48, 48, 58, 48, 48, 90,
   4, 6, 49, 49, 53, 46, 48, 48,
   5, 5, 49, 53, 46, 48, 48]

/-- Payload of a successful handler run with seller `" Acme "` used to
instantiate a witness. -/
def acmePayload : List Nat :=
  [1, 4, 65, 99, 109, 101,
   2, 15, 49, 50, 51, 52, 53, 54, 55, 56, 57, 48, 49, 50, 51, 52, 53,
   3, 20, 50, 48, 50, 52, 45, 48, 49, 45, 48, 49, 84, 48, 48, 58, 48, 48, 58, 48, 48, 90,
   4, 5, 49, 48, 46, 48, 48,
   5, 4, 49, 46, 53, 48]

theorem tlv_ok_of_le (tag : Nat) (val : String) (htag : tag ≤ 255)
    (hlen : (utf8Bytes val).length ≤ 255) : _tlv tag val = .ok (tlvRaw tag val) := by
  unfold _tlv tlvRaw
  rw [if_neg (by omega), if_neg (by omega)]

theorem tlv_oversize (tag : Nat) (val : String)
    (hlen : 255 < (utf8Bytes val).length) : _tlv tag val = .error .valueTooLarge := by
  unfold _tlv
  rw [if_pos (by omega)]

theorem tlv_ok_shape (tag : Nat) (val : String) (l : List Nat)
    (h : _tlv tag val = .ok l) : l = tlvRaw tag val := by
  unfold _tlv at h
  by_cases h1 : (utf8Bytes val).length > 255
  · rw [if_pos h1] at h; exact absurd h (by simp)
  · rw [if_neg h1] at h
    by_cases h2 : tag > 255
    · rw [if_pos h2] at h; exact absurd h (by simp)
    · rw [if_neg h2] at h
      cases h; rfl

theorem tlv_error_shape (tag : Nat) (val : String) (e : PyError)
    (h : _tlv tag val = .error e) : e = .valueTooLarge ∨ e = .byteOutOfRange := by
  unfold _tlv at h
  by_cases h1 : (utf8Bytes val).length > 255
  · rw [if_pos h1] at h; cases h; exact Or.inl rfl
  · rw [if_neg h1] at h
    by_cases h2 : tag > 255
    · rw [if_pos h2] at h; cases h; exact Or.inr rfl
    · rw [if_neg h2] at h; exact absurd h (by simp)

/-- C1: with all five fields of UTF-8 length at most 255 bytes, the
payload-assembly step of `build_zatca_base64` returns exactly the
concatenation of the five TLV encodings in tag order 1,2,3,4,5; if any
field exceeds 255 bytes the whole call fails with `ValueTooLarge` and no
partial payload is produced. -/
theorem C1_payload_all_or_nothing (s1 s2 s3 s4 s5 : String) :
    ((utf8Bytes s1).length ≤ 255 → (utf8Bytes s2).length ≤ 255 →
     (utf8Bytes s3).length ≤ 255 → (utf8Bytes s4).length ≤ 255 →
     (utf8Bytes s5).length ≤ 255 →
      encodeInvoicePayload s1 s2 s3 s4 s5 =
        .ok (tlvRaw 1 s1 ++ tlvRaw 2 s2 ++ tlvRaw 3 s3 ++ tlvRaw 4 s4 ++ tlvRaw 5 s5)) ∧
    ((255 < (utf8Bytes s1).length ∨ 255 < (utf8Bytes s2).length ∨
      255 < (utf8Bytes s3).length ∨ 255 < (utf8Bytes s4).length ∨
      255 < (utf8Bytes s5).length) →
      encodeInvoicePayload s1 s2 s3 s4 s5 = .error .valueTooLarge) := by
  constructor
  · intro h1 h2 h3 h4 h5
    unfold encodeInvoicePayload
    rw [tlv_ok_of_le 1 s1 (by omega) h1, tlv_ok_of_le 2 s2 (by omega) h2,
      tlv_ok_of_le 3 s3 (by omega) h3, tlv_ok_of_le 4 s4 (by omega) h4,
      tlv_ok_of_le 5 s5 (by omega) h5]
    rfl
  · intro hbad
    unfold encodeInvoicePayload
    rcases Nat.lt_or_ge 255 (utf8Bytes s1).length with g1 | g1
    · rw [tlv_oversize 1 s1 g1]; rfl
    rw [tlv_ok_of_le 1 s1 (by omega) g1]
    rcases Nat.lt_or_ge 255 (utf8Bytes s2).length with g2 | g2
    · rw [tlv_oversize 2 s2 g2]; rfl
    rw [tlv_ok_of_le 2 s2 (by omega) g2]
    rcases Nat.lt_or_ge 255 (utf8Bytes s3).length with g3 | g3
    · rw [tlv_oversize 3 s3 g3]; rfl
    rw [tlv_ok_of_le 3 s3 (by omega) g3]
    rcases Nat.lt_or_ge 255 (utf8Bytes s4).length with g4 | g4
    · rw [tlv_oversize 4 s4 g4]; rfl
    rw [tlv_ok_of_le 4 s4 (by omega) g4]
    rcases Nat.lt_or_ge 255 (utf8Bytes s5).length with g5 | g5
    · rw [tlv_oversize 5 s5 g5]; rfl
    · omega

set_option maxRecDepth 100000 in
/-- Witness for C1: both branches at concrete inputs — five short fields
concatenate, and one oversized field (256 two-byte characters would also
do; here 256 ASCII bytes) aborts with `ValueTooLarge`. -/
theorem C1_payload_all_or_nothing_witness :
    encodeInvoicePayload "A" "B" "C" "D" "E" =
      .ok (tlvRaw 1 "A" ++ tlvRaw 2 "B" ++ tlvRaw 3 "C" ++ tlvRaw 4 "D" ++ tlvRaw 5 "E") ∧
    encodeInvoicePayload "A" (⟨List.replicate 256 'x'⟩ : String) "C" "D" "E" =
      .error .valueTooLarge := by
  constructor
  · exact (C1_payload_all_or_nothing "A" "B" "C" "D" "E").1 (by decide) (by decide)
      (by decide) (by decide) (by decide)
  · exact (C1_payload_all_or_nothing "A" (⟨List.replicate 256 'x'⟩ : String) "C" "D" "E").2
      (Or.inr (Or.inl (by decide)))

/-- C2: for a tag in `1..255` and a value of UTF-8 length at most 255,
`_tlv` yields exactly tag byte, length byte, raw value bytes, and
decoding that record recovers the tag, the length and the value bytes. -/
theorem C2_tlv_layout_roundtrip (tag : Nat) (val : String)
    (htag1 : 1 ≤ tag) (htag2 : tag ≤ 255)
    (hlen : (utf8Bytes val).length ≤ 255) :
    _tlv tag val = .ok (tag :: (utf8Bytes val).length :: utf8Bytes val) ∧
    decodeTlv (tag :: (utf8Bytes val).length :: utf8Bytes val) =
      some (tag, (utf8Bytes val).length, utf8Bytes val) := by
  constructor
  · exact tlv_ok_of_le tag val htag2 hlen
  · simp [decodeTlv, List.take_length]

/-- Witness for C2 at tag 2 and value `abc`. -/
theorem C2_tlv_layout_roundtrip_witness :
    _tlv 2 "abc" = .ok [2, 3, 97, 98, 99] ∧
    decodeTlv [2, 3, 97, 98, 99] = some (2, 3, [97, 98, 99]) :=
  C2_tlv_layout_roundtrip 2 "abc" (by decide) (by decide) (by decide)

/-- C3: a value whose UTF-8 encoding exceeds 255 bytes makes `_tlv` fail
with `ValueTooLarge`, producing no bytes. -/
theorem C3_oversize_rejection (tag : Nat) (val : String)
    (hlen : 255 < (utf8Bytes val).length) :
    _tlv tag val = .error .valueTooLarge :=
  tlv_oversize tag val hlen

set_option maxRecDepth 100000 in
/-- Witness for C3 at a 256-byte value. -/
theorem C3_oversize_rejection_witness :
    255 < (utf8Bytes (⟨List.replicate 256 'x'⟩ : String)).length ∧
    _tlv 1 (⟨List.replicate 256 'x'⟩ : String) = .error .valueTooLarge :=
  ⟨by decide, C3_oversize_rejection 1 _ (by decide)⟩

/-- C4: the known vector — seller `Acme`, VAT `123456789012345`,
timestamp `2024-01-01T12:00:00Z`, total `115.00`, VAT `15.00` — encodes
to a TLV sequence starting `01 04 41 63 6D 65 02 0F 31 32 33`, and the
base64 text produced from it decodes back to the identical bytes. -/
theorem C4_known_vector :
    encodeInvoicePayload "Acme" "123456789012345" "2024-01-01T12:00:00Z" "115.00" "15.00" =
      .ok zatcaVector ∧
    zatcaVector.take 11 = [1, 4, 65, 99, 109, 101, 2, 15, 49, 50, 51] ∧
    build_zatca_base64 "Acme" "123456789012345" "2024-01-01T12:00:00Z" "115.00" "15.00" =
      .ok ⟨b64encodeList zatcaVector⟩ ∧
    b64decodeList (b64encodeList zatcaVector) = some zatcaVector :=
  ⟨rfl, rfl, rfl, rfl⟩

theorem dropWhile_head_not (p : Char → Bool) (l : List Char) :
    ∀ c, (l.dropWhile p).head? = some c → p c = false := by
  induction l with
  | nil => intro c h; simp [List.dropWhile] at h
  | cons a t ih =>
      intro c h
      by_cases hpa : p a
      · rw [List.dropWhile_cons, if_pos hpa] at h
        exact ih c h
      · rw [List.dropWhile_cons, if_neg hpa] at h
        simp at h
        subst h
        simpa using hpa

theorem prefix_head_eq {l1 l2 : List Char} {c : Char} (h : l1 <+: l2)
    (hh : l1.head? = some c) : l2.head? = some c := by
  obtain ⟨t, rfl⟩ := h
  cases l1 <;> simp_all

theorem dropWhileEndFront (p : Char → Bool) (l : List Char) :
    dropWhileEnd p l <+: l := by
  unfold dropWhileEnd
  have h : l.reverse.dropWhile p <:+ l.reverse := List.dropWhile_suffix p
  have h2 := List.reverse_prefix.mpr h
  simpa using h2

theorem pyStrip_head (s : String) (c : Char)
    (h : (pyStrip s).data.head? = some c) : pyIsSpace c = false := by
  have hpre := dropWhileEndFront pyIsSpace (s.data.dropWhile pyIsSpace)
  exact dropWhile_head_not pyIsSpace s.data c (prefix_head_eq hpre h)

theorem pyStrip_last (s : String) (c : Char)
    (h : (pyStrip s).data.getLast? = some c) : pyIsSpace c = false := by
  unfold pyStrip dropWhileEnd at h
  rw [List.getLast?_reverse] at h
  exact dropWhile_head_not pyIsSpace _ c h

theorem mem_pyStrip (s : String) (c : Char) (h : c ∈ (pyStrip s).data) :
    c ∈ s.data := by
  have h1 : (pyStrip s).data.Sublist (s.data.dropWhile pyIsSpace) :=
    (dropWhileEndFront pyIsSpace (s.data.dropWhile pyIsSpace)).sublist
  exact (List.dropWhile_sublist pyIsSpace).subset (h1.subset h)

/-- C6 fails as stated: `_clean_vat` keeps every Unicode decimal digit,
so the Arabic-Indic digit `٥` (U+0665) survives, and the result is not
made of ASCII digit characters. -/
theorem C6_counterexample :
    _clean_vat "٥" = "٥" ∧
    ((_clean_vat "٥").data.all fun c => decide (c.toNat < 128)) = false :=
  ⟨rfl, rfl⟩

/-- C6 (amended): `_clean_vat` returns exactly the subsequence of
Unicode decimal-digit characters of the input, every non-digit stripped;
the result need not be ASCII (non-ASCII digits such as Arabic-Indic ones
are kept verbatim). -/
theorem C6_clean_vat_digits (v : String) :
    (_clean_vat v).data = v.data.filter isNd ∧
    (_clean_vat v).data.Sublist v.data ∧
    ((_clean_vat v).data.all isNd) = true := by
  refine ⟨rfl, List.filter_sublist v.data, ?_⟩
  rw [List.all_eq_true]
  intro c hc
  exact List.of_mem_filter hc

/-- C7 fails as stated: `_fmt2("Infinity")` raises `InvalidOperation`
out of `quantize` (only the constructor is guarded), and `_fmt2("NaN")`
returns the text `NaN`, not a two-fraction-digit decimal string. -/
theorem C7_counterexample :
    _fmt2 "Infinity" = .error .invalidOperation ∧ _fmt2 "NaN" = .ok "NaN" :=
  ⟨rfl, rfl⟩

/-- C7 (amended): inputs that fail `Decimal` parsing give `"0.00"`;
finite parses whose half-up two-digit scaling stays below 10^28 are
formatted with exactly two fraction digits (half-up); the spec examples
`10 ↦ 10.00`, `10.005 ↦ 10.01`, `abc ↦ 0.00` hold; but quiet NaN inputs
yield NaN text and infinities (or quantize overflow past the 28-digit
context precision) raise `InvalidOperation`. -/
theorem C7_fmt2_behaviour :
    (∀ x : String, parseDecimal x = none → _fmt2 x = .ok "0.00") ∧
    (∀ (x : String) (neg : Bool) (c : Nat) (e : Int),
      parseDecimal x = some (.num neg c e) → halfUpScaled c e < 10 ^ 28 →
      _fmt2 x = .ok ((if neg then "-" else "") ++ natToDec (halfUpScaled c e / 100) ++
        "." ++ pad2 (halfUpScaled c e % 100))) ∧
    _fmt2 "10" = .ok "10.00" ∧ _fmt2 "10.005" = .ok "10.01" ∧
    _fmt2 "abc" = .ok "0.00" := by
  refine ⟨?_, ?_, rfl, rfl, rfl⟩
  · intro x h
    rw [_fmt2, h]
    rfl
  · intro x neg c e h hlt
    rw [_fmt2, h]
    show quantizeFmt (.num neg c e) = _
    rw [quantizeFmt]
    rw [if_neg (by omega)]

/-- Witness for C7: the parse-failure clause at `"xy"` and the finite
clause at `"2.675"` (half-up: `2.675 ↦ 2.68`). -/
theorem C7_fmt2_behaviour_witness :
    _fmt2 "xy" = .ok "0.00" ∧ _fmt2 "2.675" = .ok "2.68" := by
  refine ⟨C7_fmt2_behaviour.1 "xy" rfl, ?_⟩
  have h := C7_fmt2_behaviour.2.1 "2.675" false 2675 (-3) (by decide) (by decide)
  rw [h]
  rfl

/-- C9: every character surviving `sanitize` is ASCII (code point below
128), no bidirectional-control character survives, the result carries no
leading or trailing whitespace, and Arabic-Indic digits are
transliterated to the corresponding ASCII digits rather than dropped. -/
theorem C9_sanitize_ascii (s : String) :
    ((sanitize s).data.all fun c => decide (c.toNat < 128)) = true ∧
    ((sanitize s).data.all fun c => !isBidiControl c) = true ∧
    Option.all (fun c => !pyIsSpace c) (sanitize s).data.head? = true ∧
    Option.all (fun c => !pyIsSpace c) (sanitize s).data.getLast? = true ∧
    ((List.range 10).all fun k =>
      arabicToAscii (Char.ofNat (0x660 + k)) == digitChar k) = true ∧
    sanitize "٠١٢٣٤٥٦٧٨٩" = "0123456789" ∧
    sanitize "a٥b" = "a5b" := by
  refine ⟨?_, ?_, ?_, ?_, by decide, by decide, by decide⟩
  · rw [List.all_eq_true]
    intro c hc
    have hmem : c ∈ ((s.data.map arabicToAscii).filter fun c => !isBidiControl c).filter
        (fun c => decide (c.toNat < 128)) := mem_pyStrip _ c hc
    exact (List.mem_filter.mp hmem).2
  · rw [List.all_eq_true]
    intro c hc
    have hmem : c ∈ ((s.data.map arabicToAscii).filter fun c => !isBidiControl c).filter
        (fun c => decide (c.toNat < 128)) := mem_pyStrip _ c hc
    exact (List.mem_filter.mp (List.mem_filter.mp hmem).1).2
  · cases hh : (sanitize s).data.head? with
    | none => rfl
    | some c => simpa using pyStrip_head _ c hh
  · cases hh : (sanitize s).data.getLast? with
    | none => rfl
    | some c => simpa using pyStrip_last _ c hh

theorem exc_bind_ok {α β : Type} (a : α) (f : α → Except PyError β) :
    (Except.ok a >>= f) = f a := rfl

theorem exc_bind_err {α β : Type} (e : PyError) (f : α → Except PyError β) :
    ((Except.error e : Except PyError α) >>= f) = Except.error e := rfl

theorem quantizeFmt_error_shape (q : PyDec) (e : PyError)
    (h : quantizeFmt q = .error e) : e = .invalidOperation := by
  cases q with
  | num neg c ex =>
      simp only [quantizeFmt] at h
      split at h <;> simp_all
  | inf neg => simp only [quantizeFmt] at h; simp_all
  | nanv neg sig d =>
      simp only [quantizeFmt] at h
      split at h <;> simp_all

theorem fmt2_error_shape (x : String) (e : PyError)
    (h : _fmt2 x = .error e) : e = .invalidOperation :=
  quantizeFmt_error_shape _ e h

theorem encode_error_shape (s1 s2 s3 s4 s5 : String) (e : PyError)
    (h : encodeInvoicePayload s1 s2 s3 s4 s5 = .error e) :
    e = .valueTooLarge ∨ e = .byteOutOfRange := by
  unfold encodeInvoicePayload at h
  cases h1 : _tlv 1 s1 with
  | error e1 =>
      rw [h1] at h
      have h' : (Except.error e1 : Except PyError (List Nat)) = .error e := h
      cases h'
      exact tlv_error_shape 1 s1 _ h1
  | ok t1 =>
  rw [h1] at h
  cases h2 : _tlv 2 s2 with
  | error e2 =>
      rw [h2] at h
      have h' : (Except.error e2 : Except PyError (List Nat)) = .error e := h
      cases h'
      exact tlv_error_shape 2 s2 _ h2
  | ok t2 =>
  rw [h2] at h
  cases h3 : _tlv 3 s3 with
  | error e3 =>
      rw [h3] at h
      have h' : (Except.error e3 : Except PyError (List Nat)) = .error e := h
      cases h'
      exact tlv_error_shape 3 s3 _ h3
  | ok t3 =>
  rw [h3] at h
  cases h4 : _tlv 4 s4 with
  | error e4 =>
      rw [h4] at h
      have h' : (Except.error e4 : Except PyError (List Nat)) = .error e := h
      cases h'
      exact tlv_error_shape 4 s4 _ h4
  | ok t4 =>
  rw [h4] at h
  cases h5 : _tlv 5 s5 with
  | error e5 =>
      rw [h5] at h
      have h' : (Except.error e5 : Except PyError (List Nat)) = .error e := h
      cases h'
      exact tlv_error_shape 5 s5 _ h5
  | ok t5 =>
  rw [h5] at h
  exact absurd (show (Except.ok (t1 ++ t2 ++ t3 ++ t4 ++ t5) :
    Except PyError (List Nat)) = .error e from h) (by simp)

theorem encode_ok_shape (s1 s2 s3 s4 s5 : String) (p : List Nat)
    (h : encodeInvoicePayload s1 s2 s3 s4 s5 = .ok p) :
    ∃ rest, p = tlvRaw 1 s1 ++ rest := by
  unfold encodeInvoicePayload at h
  cases h1 : _tlv 1 s1 with
  | error e1 =>
      rw [h1] at h
      exact absurd (show (Except.error e1 : Except PyError (List Nat)) = .ok p from h)
        (by simp)
  | ok t1 =>
  rw [h1] at h
  cases h2 : _tlv 2 s2 with
  | error e2 =>
      rw [h2] at h
      exact absurd (show (Except.error e2 : Except PyError (List Nat)) = .ok p from h)
        (by simp)
  | ok t2 =>
  rw [h2] at h
  cases h3 : _tlv 3 s3 with
  | error e3 =>
      rw [h3] at h
      exact absurd (show (Except.error e3 : Except PyError (List Nat)) = .ok p from h)
        (by simp)
  | ok t3 =>
  rw [h3] at h
  cases h4 : _tlv 4 s4 with
  | error e4 =>
      rw [h4] at h
      exact absurd (show (Except.error e4 : Except PyError (List Nat)) = .ok p from h)
        (by simp)
  | ok t4 =>
  rw [h4] at h
  cases h5 : _tlv 5 s5 with
  | error e5 =>
      rw [h5] at h
      exact absurd (show (Except.error e5 : Except PyError (List Nat)) = .ok p from h)
        (by simp)
  | ok t5 =>
  rw [h5] at h
  have h' : (Except.ok (t1 ++ t2 ++ t3 ++ t4 ++ t5) : Except PyError (List Nat)) = .ok p := h
  have hp : t1 ++ t2 ++ t3 ++ t4 ++ t5 = p := by
    cases h'
    rfl
  refine ⟨t2 ++ t3 ++ t4 ++ t5, ?_⟩
  rw [← hp, tlv_ok_shape 1 s1 t1 h1]
  simp [List.append_assoc]

/-- C5: the QR button handler fails with `InvalidVatLength` exactly when
the cleaned VAT digit string does not have length 15; in the failure
case the handler produces no payload and no base64 text. -/
theorem C5_vat_length_gate (qr_vat_number qr_seller qr_total qr_vat iso : String) :
    (qr_button_handler qr_vat_number qr_seller qr_total qr_vat iso =
      .error .invalidVatLength) ↔ (_clean_vat qr_vat_number).length ≠ 15 := by
  unfold qr_button_handler
  by_cases hlen : (_clean_vat qr_vat_number).length = 15
  · rw [if_neg (by omega)]
    constructor
    · intro h
      exfalso
      cases hf1 : _fmt2 qr_total with
      | error e =>
          rw [hf1] at h
          have h' : (Except.error e : Except PyError (List Nat × String)) =
            .error .invalidVatLength := h
          cases h'
          simpa using fmt2_error_shape _ _ hf1
      | ok t2 =>
      simp only [hf1, exc_bind_ok] at h
      cases hf2 : _fmt2 qr_vat with
      | error e =>
          simp only [hf2, exc_bind_err] at h
          cases h
          simpa using fmt2_error_shape _ _ hf2
      | ok v2 =>
      simp only [hf2, exc_bind_ok] at h
      cases he : encodeInvoicePayload (pyStrip qr_seller) (_clean_vat qr_vat_number)
          iso t2 v2 with
      | error e =>
          simp only [he, exc_bind_err] at h
          cases h
          rcases encode_error_shape _ _ _ _ _ _ he with h | h <;> simp at h
      | ok p =>
          simp only [he, exc_bind_ok] at h
          exact absurd (show (Except.ok (p, (⟨b64encodeList p⟩ : String)) :
            Except PyError (List Nat × String)) = .error .invalidVatLength from h) (by simp)
    · intro h
      exact absurd hlen h
  · rw [if_pos hlen]
    simp [hlen]

/-- C8 fails as stated: nothing rejects an empty seller — with a valid
VAT the handler succeeds and emits a tag-1 record of length 0. -/
theorem C8_counterexample :
    (qr_button_handler "123456789012345" "" "10" "1" "2024-01-01T00:00:00Z").isOk = true ∧
    (qr_button_handler "123456789012345" "" "10" "1" "2024-01-01T00:00:00Z").toOption.map
      (fun r => r.1.take 2) = some [1, 0] :=
  ⟨rfl, rfl⟩

/-- C8 (amended): on every successful handler run the tag-1 value is the
`strip()`-ped seller name — no leading or trailing whitespace — but an
empty or whitespace-only seller still succeeds, encoding an empty tag-1
value. -/
theorem C8_seller_trimmed_tag1 (qr_vat_number qr_seller qr_total qr_vat iso : String)
    (payload : List Nat) (b64 : String)
    (h : qr_button_handler qr_vat_number qr_seller qr_total qr_vat iso =
      .ok (payload, b64)) :
    (∃ rest, payload = tlvRaw 1 (pyStrip qr_seller) ++ rest) ∧
    Option.all (fun c => !pyIsSpace c) (pyStrip qr_seller).data.head? = true ∧
    Option.all (fun c => !pyIsSpace c) (pyStrip qr_seller).data.getLast? = true := by
  refine ⟨?_, ?_, ?_⟩
  · unfold qr_button_handler at h
    by_cases hlen : (_clean_vat qr_vat_number).length = 15
    · rw [if_neg (by omega)] at h
      cases hf1 : _fmt2 qr_total with
      | error e =>
          rw [hf1] at h
          exact absurd (show (Except.error e : Except PyError (List Nat × String)) =
            .ok (payload, b64) from h) (by simp)
      | ok t2 =>
      simp only [hf1, exc_bind_ok] at h
      cases hf2 : _fmt2 qr_vat with
      | error e =>
          simp only [hf2, exc_bind_err] at h
          exact absurd (show (Except.error e : Except PyError (List Nat × String)) =
            .ok (payload, b64) from h) (by simp)
      | ok v2 =>
      simp only [hf2, exc_bind_ok] at h
      cases he : encodeInvoicePayload (pyStrip qr_seller) (_clean_vat qr_vat_number)
          iso t2 v2 with
      | error e =>
          simp only [he, exc_bind_err] at h
          exact absurd (show (Except.error e : Except PyError (List Nat × String)) =
            .ok (payload, b64) from h) (by simp)
      | ok p =>
          simp only [he, exc_bind_ok] at h
          have h' : (Except.ok (p, (⟨b64encodeList p⟩ : String)) :
            Except PyError (List Nat × String)) = .ok (payload, b64) := h
          have hp : p = payload := by
            injection h' with hpair
            exact congrArg Prod.fst hpair
          obtain ⟨rest, hrest⟩ := encode_ok_shape _ _ _ _ _ p he
          exact ⟨rest, by rw [← hp, hrest]⟩
    · rw [if_pos hlen] at h
      exact absurd (show (Except.error PyError.invalidVatLength :
        Except PyError (List Nat × String)) = .ok (payload, b64) from h) (by simp)
  · cases hh : (pyStrip qr_seller).data.head? with
    | none => rfl
    | some c => simpa using pyStrip_head _ c hh
  · cases hh : (pyStrip qr_seller).data.getLast? with
    | none => rfl
    | some c => simpa using pyStrip_last _ c hh

/-- Witness for C8 (amended) at a successful concrete run with seller
`" Acme "`. -/
theorem C8_seller_trimmed_tag1_witness :
    (∃ rest, acmePayload = tlvRaw 1 (pyStrip " Acme ") ++ rest) ∧
    Option.all (fun c => !pyIsSpace c) (pyStrip " Acme ").data.head? = true ∧
    Option.all (fun c => !pyIsSpace c) (pyStrip " Acme ").data.getLast? = true :=
  C8_seller_trimmed_tag1 "123456789012345" " Acme " "10" "1.5" "2024-01-01T00:00:00Z"
    acmePayload
    "AQRBY21lAg8xMjM0NTY3ODkwMTIzNDUDFDIwMjQtMDEtMDFUMDA6MDA6MDBaBAUxMC4wMAUEMS41MA=="
    (by rfl)

theorem natDigitsAux_fuel (fuel1 : Nat) : ∀ (fuel2 n : Nat), n < fuel1 → n < fuel2 →
    natDigitsAux fuel1 n = natDigitsAux fuel2 n := by
  induction fuel1 with
  | zero => intro fuel2 n h1 _; omega
  | succ f1 ih =>
      intro fuel2 n h1 h2
      cases fuel2 with
      | zero => omega
      | succ f2 =>
          simp only [natDigitsAux]
          by_cases hn : n < 10
          · rw [if_pos hn, if_pos hn]
          · rw [if_neg hn, if_neg hn]
            have hd : n / 10 < n := Nat.div_lt_self (by omega) (by omega)
            rw [ih f2 (n / 10) (by omega) (by omega)]

theorem natDigits_step (n : Nat) (h : 10 ≤ n) :
    natDigits n = natDigits (n / 10) ++ [n % 10] := by
  have hd : n / 10 < n := Nat.div_lt_self (by omega) (by omega)
  show natDigitsAux (n + 1) n = natDigitsAux (n / 10 + 1) (n / 10) ++ [n % 10]
  rw [show natDigitsAux (n + 1) n =
    (if n < 10 then [n] else natDigitsAux n (n / 10) ++ [n % 10]) from rfl]
  rw [if_neg (by omega)]
  rw [natDigitsAux_fuel n (n / 10 + 1) (n / 10) (by omega) (by omega)]

theorem natDigits_small (n : Nat) (h : n < 10) : natDigits n = [n] := by
  unfold natDigits
  simp only [natDigitsAux]
  rw [if_pos h]

theorem natDigits_four (y : Nat) (h1 : 1000 ≤ y) (h2 : y ≤ 9999) :
    natDigits y = [y / 1000, y / 100 % 10, y / 10 % 10, y % 10] := by
  have e1 : y / 10 / 10 = y / 100 := by omega
  have e2 : y / 100 / 10 = y / 1000 := by omega
  rw [natDigits_step y (by omega), natDigits_step (y / 10) (by omega), e1,
    natDigits_step (y / 100) (by omega), e2, natDigits_small (y / 1000) (by omega)]
  simp

theorem digitChar_facts : ∀ k, k < 10 → isNd (digitChar k) = true ∧
    ndVal (digitChar k) = k ∧ pyIsSpace (digitChar k) = false := by decide

theorem dayOk2_render : ∀ d, d < 32 → 1 ≤ d →
    dayOk2 (digitChar (d / 10 % 10)) (digitChar (d % 10)) = true := by decide

theorem monthOk2_render : ∀ m, m < 13 → 1 ≤ m →
    monthOk2 (digitChar (m / 10 % 10)) (digitChar (m % 10)) = true := by decide

theorem hourOk2_render : ∀ h, h < 24 →
    hourOk2 (digitChar (h / 10 % 10)) (digitChar (h % 10)) = true := by decide

theorem minuteOk2_render : ∀ x, x < 60 →
    minuteOk2 (digitChar (x / 10 % 10)) (digitChar (x % 10)) = true := by decide

theorem secondOk2_render : ∀ x, x < 60 →
    secondOk2 (digitChar (x / 10 % 10)) (digitChar (x % 10)) = true := by decide

theorem nd2_pad (x : Nat) (hx : x < 100) :
    nd2 (digitChar (x / 10 % 10)) (digitChar (x % 10)) = x := by
  rw [nd2, (digitChar_facts (x / 10 % 10) (by omega)).2.1,
    (digitChar_facts (x % 10) (by omega)).2.1]
  omega

theorem nd4_render (y : Nat) (h1 : 1000 ≤ y) (h2 : y ≤ 9999) :
    nd4 (digitChar (y / 1000)) (digitChar (y / 100 % 10)) (digitChar (y / 10 % 10))
      (digitChar (y % 10)) = y := by
  rw [nd4, (digitChar_facts (y / 1000) (by omega)).2.1,
    (digitChar_facts (y / 100 % 10) (by omega)).2.1,
    (digitChar_facts (y / 10 % 10) (by omega)).2.1,
    (digitChar_facts (y % 10) (by omega)).2.1]
  omega

theorem daysInMonth_le (y m : Nat) : daysInMonth y m ≤ 31 := by
  unfold daysInMonth
  split
  · split <;> omega
  · split <;> omega

theorem opt_bind_some {α β : Type} (a : α) (f : α → Option β) :
    (some a >>= f) = f a := rfl

theorem parseField_two (ok2 : Char → Char → Bool) (ok1 : Char → Bool)
    (c1 c2 : Char) (rest : List Char) (h : ok2 c1 c2 = true) :
    parseField ok2 ok1 (c1 :: c2 :: rest) = some (nd2 c1 c2, rest) := by
  simp [parseField, h]

theorem expectChar_eq (c : Char) (rest : List Char) :
    expectChar c (c :: rest) = some rest := by
  simp [expectChar]

theorem expectWs_one (c x : Char) (rest : List Char) (h1 : pyIsSpace c = true)
    (hx : pyIsSpace x = false) :
    expectWs (c :: x :: rest) = some (x :: rest) := by
  simp [expectWs, List.takeWhile_cons, List.dropWhile_cons, h1, hx]

theorem parseYear4_digits (a b c d : Nat) (ha : a < 10) (hb : b < 10) (hc : c < 10)
    (hd : d < 10) (rest : List Char) :
    parseYear4 (digitChar a :: digitChar b :: digitChar c :: digitChar d :: rest) =
      some (nd4 (digitChar a) (digitChar b) (digitChar c) (digitChar d), rest) := by
  simp [parseYear4, (digitChar_facts a ha).1, (digitChar_facts b hb).1,
    (digitChar_facts c hc).1, (digitChar_facts d hd).1]

/-- C10 fails as stated: `pdf_date_to_display_date` strips the `D:`
prefix before matching, so a non-matching `D:`-prefixed input is not
returned unchanged; and a valid zero-padded display date with year below
1000 does not round-trip, because `strftime %Y` renders the year
unpadded (glibc), producing a PDF string whose digit prefix is too
short for the fourteen-digit regex. -/
theorem C10_counterexample :
    pdf_date_to_display_date "D:x" = "x" ∧
    pdf_date_to_display_date "D:x" ≠ "D:x" ∧
    display_date_to_pdf_date "01/01/0999, 00:00:00" =
      "D:9990101000000" ++ "+03" ++ apos ++ "00" ++ apos ∧
    pdf_date_to_display_date ("D:9990101000000" ++ "+03" ++ apos ++ "00" ++ apos) ≠
      "01/01/0999, 00:00:00" := by
  refine ⟨rfl, by decide, rfl, by decide⟩

/-- C10 (amended): for every valid calendar date-time with year in
`1000..9999`, the zero-padded display rendering round-trips —
`display_date_to_pdf_date` produces `D:YYYYMMDDHHMMSS+03'00'` and
`pdf_date_to_display_date` maps it back to the original display string;
`display_date_to_pdf_date` returns its input unchanged whenever the
strict display parse fails; and `pdf_date_to_display_date`, on input
whose `D:`-stripped form does not begin with fourteen digits, returns
the `D:`-stripped input (not the input itself; empty input gives `""`).
Years below 1000 are excluded: `%Y` renders them without padding, which
breaks the round-trip. -/
theorem C10_pdf_date_transcoding :
    (∀ y M d H Mi S : Nat, 1000 ≤ y → validDateTime y M d H Mi S = true →
      display_date_to_pdf_date (strftimeDisplay y M d H Mi S) = strftimePdf y M d H Mi S ∧
      pdf_date_to_display_date (strftimePdf y M d H Mi S) = strftimeDisplay y M d H Mi S) ∧
    (∀ s : String, strptimeDisplay s = none → display_date_to_pdf_date s = s) ∧
    (∀ s : String, s ≠ "" → pdfRegex14 (stripD s).data = none →
      pdf_date_to_display_date s = stripD s) := by
  refine ⟨?_, ?_, ?_⟩
  · intro y M d H Mi S hy hv
    have hvx := hv
    simp only [validDateTime, decide_eq_true_eq] at hvx
    obtain ⟨hy1, hy2, hM1, hM2, hd1, hd2, hH, hMi, hS⟩ := hvx
    have hd31 : d ≤ 31 := le_trans hd2 (daysInMonth_le y M)
    have hsl : "/".data = ['/'] := rfl
    have hcm : ", ".data = [',', ' '] := rfl
    have hcl : ":".data = [':'] := rfl
    have hdata : (strftimeDisplay y M d H Mi S).data =
        digitChar (d / 10 % 10) :: digitChar (d % 10) :: '/' ::
        digitChar (M / 10 % 10) :: digitChar (M % 10) :: '/' ::
        digitChar (y / 1000) :: digitChar (y / 100 % 10) :: digitChar (y / 10 % 10) ::
        digitChar (y % 10) :: ',' :: ' ' ::
        digitChar (H / 10 % 10) :: digitChar (H % 10) :: ':' ::
        digitChar (Mi / 10 % 10) :: digitChar (Mi % 10) :: ':' ::
        digitChar (S / 10 % 10) :: digitChar (S % 10) :: [] := by
      simp [strftimeDisplay, pad2, natToDec, natDigits_four y hy hy2,
        String.data_append, hsl, hcm, hcl]
    have hnd2d : nd2 (digitChar (d / 10 % 10)) (digitChar (d % 10)) = d :=
      nd2_pad d (by omega)
    have hnd2M : nd2 (digitChar (M / 10 % 10)) (digitChar (M % 10)) = M :=
      nd2_pad M (by omega)
    have hnd2H : nd2 (digitChar (H / 10 % 10)) (digitChar (H % 10)) = H :=
      nd2_pad H (by omega)
    have hnd2Mi : nd2 (digitChar (Mi / 10 % 10)) (digitChar (Mi % 10)) = Mi :=
      nd2_pad Mi (by omega)
    have hnd2S : nd2 (digitChar (S / 10 % 10)) (digitChar (S % 10)) = S :=
      nd2_pad S (by omega)
    have hy4 : nd4 (digitChar (y / 1000)) (digitChar (y / 100 % 10))
        (digitChar (y / 10 % 10)) (digitChar (y % 10)) = y := nd4_render y hy hy2
    have hokd : dayOk2 (digitChar (d / 10 % 10)) (digitChar (d % 10)) = true :=
      dayOk2_render d (by omega) (by omega)
    have hokM : monthOk2 (digitChar (M / 10 % 10)) (digitChar (M % 10)) = true :=
      monthOk2_render M (by omega) (by omega)
    have hokH : hourOk2 (digitChar (H / 10 % 10)) (digitChar (H % 10)) = true :=
      hourOk2_render H (by omega)
    have hokMi : minuteOk2 (digitChar (Mi / 10 % 10)) (digitChar (Mi % 10)) = true :=
      minuteOk2_render Mi (by omega)
    have hokS : secondOk2 (digitChar (S / 10 % 10)) (digitChar (S % 10)) = true :=
      secondOk2_render S (by omega)
    have hspc : pyIsSpace ' ' = true := rfl
    have hspH : pyIsSpace (digitChar (H / 10 % 10)) = false :=
      (digitChar_facts _ (by omega)).2.2
    have hstep : strptimeDisplay (strftimeDisplay y M d H Mi S) =
        some (y, M, d, H, Mi, S) := by
      unfold strptimeDisplay
      rw [hdata]
      simp only [parseField_two _ _ _ _ _ hokd, opt_bind_some, expectChar_eq,
        parseField_two _ _ _ _ _ hokM,
        parseYear4_digits (y / 1000) (y / 100 % 10) (y / 10 % 10) (y % 10)
          (by omega) (by omega) (by omega) (by omega),
        expectWs_one _ _ _ hspc hspH,
        parseField_two _ _ _ _ _ hokH,
        parseField_two _ _ _ _ _ hokMi,
        parseField_two _ _ _ _ _ hokS,
        hnd2d, hnd2M, hnd2H, hnd2Mi, hnd2S, hy4]
      simp [hv]
    constructor
    · simp only [display_date_to_pdf_date, hstep]
    · have hap : apos.data = [Char.ofNat 39] := rfl
      have hdD : "D:".data = ['D', ':'] := rfl
      have hplus : "+03".data = ['+', '0', '3'] := rfl
      have h00 : "00".data = ['0', '0'] := rfl
      have hdata2 : (strftimePdf y M d H Mi S).data =
          'D' :: ':' :: digitChar (y / 1000) :: digitChar (y / 100 % 10) ::
          digitChar (y / 10 % 10) :: digitChar (y % 10) ::
          digitChar (M / 10 % 10) :: digitChar (M % 10) ::
          digitChar (d / 10 % 10) :: digitChar (d % 10) ::
          digitChar (H / 10 % 10) :: digitChar (H % 10) ::
          digitChar (Mi / 10 % 10) :: digitChar (Mi % 10) ::
          digitChar (S / 10 % 10) :: digitChar (S % 10) ::
          '+' :: '0' :: '3' :: Char.ofNat 39 :: '0' :: '0' :: Char.ofNat 39 :: [] := by
        simp [strftimePdf, pad2, natToDec, natDigits_four y hy hy2,
          String.data_append, hap, hdD, hplus, h00]
      have hne : strftimePdf y M d H Mi S ≠ "" := by
        intro hcon
        have hc2 := congrArg String.data hcon
        rw [hdata2] at hc2
        simp at hc2
      have hnds : ∀ k, k < 10 → isNd (digitChar k) = true :=
        fun k hk => (digitChar_facts k hk).1
      have hl2 : (if (strftimePdf y M d H Mi S).data.take 2 = ['D', ':']
          then (strftimePdf y M d H Mi S).data.drop 2
          else (strftimePdf y M d H Mi S).data) =
          digitChar (y / 1000) :: digitChar (y / 100 % 10) ::
          digitChar (y / 10 % 10) :: digitChar (y % 10) ::
          digitChar (M / 10 % 10) :: digitChar (M % 10) ::
          digitChar (d / 10 % 10) :: digitChar (d % 10) ::
          digitChar (H / 10 % 10) :: digitChar (H % 10) ::
          digitChar (Mi / 10 % 10) :: digitChar (Mi % 10) ::
          digitChar (S / 10 % 10) :: digitChar (S % 10) ::
          '+' :: '0' :: '3' :: Char.ofNat 39 :: '0' :: '0' :: Char.ofNat 39 :: [] := by
        rw [hdata2]
        simp
      unfold pdf_date_to_display_date
      rw [if_neg hne]
      rw [hl2]
      simp only [pdfRegex14, List.all_cons, List.all_nil,
        hnds (y / 1000) (by omega), hnds (y / 100 % 10) (by omega),
        hnds (y / 10 % 10) (by omega), hnds (y % 10) (by omega),
        hnds (M / 10 % 10) (by omega), hnds (M % 10) (by omega),
        hnds (d / 10 % 10) (by omega), hnds (d % 10) (by omega),
        hnds (H / 10 % 10) (by omega), hnds (H % 10) (by omega),
        hnds (Mi / 10 % 10) (by omega), hnds (Mi % 10) (by omega),
        hnds (S / 10 % 10) (by omega), hnds (S % 10) (by omega),
        Bool.and_true, Bool.true_and, if_true]
      simp only [hy4, hnd2d, hnd2M, hnd2H, hnd2Mi, hnd2S]
      simp [hv]
  · intro s h
    simp only [display_date_to_pdf_date, h]
  · intro s hne hreg
    have hl : (stripD s).data =
        (if s.data.take 2 = ['D', ':'] then s.data.drop 2 else s.data) := by
      unfold stripD
      split <;> rfl
    unfold pdf_date_to_display_date
    rw [if_neg hne]
    simp only [← hl, hreg]

/-- Witness for C10 (amended): the round trip at 2024-01-02 03:04:05,
the display side returning a non-parsing string unchanged, and the PDF
side returning the stripped input on a non-matching `D:` string. -/
theorem C10_pdf_date_transcoding_witness :
    (display_date_to_pdf_date (strftimeDisplay 2024 1 2 3 4 5) = strftimePdf 2024 1 2 3 4 5 ∧
     pdf_date_to_display_date (strftimePdf 2024 1 2 3 4 5) = strftimeDisplay 2024 1 2 3 4 5) ∧
    display_date_to_pdf_date "99/99/9999, 99:99:99" = "99/99/9999, 99:99:99" ∧
    pdf_date_to_display_date "D:hello" = stripD "D:hello" :=
  ⟨C10_pdf_date_transcoding.1 2024 1 2 3 4 5 (by omega) (by decide),
   C10_pdf_date_transcoding.2.1 "99/99/9999, 99:99:99" (by decide),
   C10_pdf_date_transcoding.2.2 "D:hello" (by decide) (by decide)⟩

end App
